import Mathlib

/-!
Verification of the HomGar Home Assistant integration
(`custom_components/homgar`): a shallow embedding of the cloud API
client's token lifecycle (`homgar_api.py`, class `HomGarClient`), of the
telemetry payload decoders (`_parse_homgar_payload`,
`decode_moisture_simple`, `decode_moisture_full`, `decode_rain`), and of
the configuration flow's "user" step (`config_flow.py`,
`async_step_user`), together with theorems settling the specification's
claims about them.

Modelling conventions:
- Python `datetime` instants (microsecond resolution) are modelled as
  `Int` microseconds since the Unix epoch, UTC.  `timedelta(minutes=5)`
  is `5 * 60 * usPerSecond` microseconds.  `int(dt.timestamp())`
  truncates the fractional seconds toward zero, which is `Int.tdiv` by
  `usPerSecond` (the float rounding of `.timestamp()` at 2^52-scale
  magnitudes is treated as exact).
- Python floats in the decoders (`/ 10.0`, `/ 1.8`) are modelled as
  exact rational arithmetic over `ℚ`.
- Python exceptions (`ValueError`, `HomGarApiError`, `AbortFlow`) are
  modelled with `Except String` or explicit result constructors.
- Python integers are unbounded, as is `Int`; `<<` and `|` on them are
  two's-complement operations on unbounded integers, which is exactly
  `<<<` and `Int.lor` on `ℤ`.
- `int(s, 16)` on the decoders' 2-character slices accepts, besides two
  hexadecimal digits, a leading ASCII sign or surrounding ASCII
  whitespace around a single digit; this is modelled in `int_of_hex2`
  (exotic Unicode digit and whitespace forms are not modelled; no claim
  is settled on such inputs).
-/

deriving instance DecidableEq for Except

/-! ## Client token state (`homgar_api.py`, `HomGarClient`) -/

/-- Microseconds per second, the resolution of Python `datetime`. -/
def usPerSecond : Int := 1000000

/-- The 5-minute refresh margin of `_token_valid`, in microseconds
(`timedelta(minutes=5)`). -/
def fiveMinutesUs : Int := 5 * 60 * usPerSecond

/-- The token-related mutable state of a `HomGarClient` instance
(`__init__` lines 31–33).  Credentials, the HTTP session and the fixed
base URL are not modelled: no claim depends on them.
`token_expires_at` is microseconds since the epoch, UTC. -/
structure ClientState where
  token : Option String
  refresh_token : Option String
  token_expires_at : Option Int
deriving DecidableEq

/-- A freshly constructed client: all three token fields unset
(`__init__`: `self._token = None`, etc.). -/
def initClientState : ClientState :=
  { token := none, refresh_token := none, token_expires_at := none }

/-- The persisted token snapshot (config entry fields `token`,
`refresh_token`, `token_expires_at`); `token_expires_at` is a Unix
timestamp in whole seconds, `none` when the key is absent / `None`. -/
structure TokenData where
  token : Option String
  refresh_token : Option String
  token_expires_at : Option Int
deriving DecidableEq

/-- `HomGarClient.restore_tokens`: copies token and refresh token from
the snapshot (`data.get` yields `None` for absent keys), and, only when
the timestamp is present, converts it to an absolute UTC instant
(`datetime.fromtimestamp(ts, tz=timezone.utc)`, i.e. seconds →
microseconds); an absent timestamp leaves `_token_expires_at`
unchanged. -/
def restore_tokens (st : ClientState) (data : TokenData) : ClientState :=
  { st with
    token := data.token
    refresh_token := data.refresh_token
    token_expires_at :=
      match data.token_expires_at with
      | some ts => some (ts * usPerSecond)
      | none => st.token_expires_at }

/-- `HomGarClient.export_tokens`: snapshots the three fields; the expiry
instant is serialized as `int(self._token_expires_at.timestamp())` when
held (truncation toward zero = `Int.tdiv`), else `None` (a `datetime`
object is always truthy, so the Python conditional tests presence). -/
def export_tokens (st : ClientState) : TokenData :=
  { token := st.token
    refresh_token := st.refresh_token
    token_expires_at :=
      match st.token_expires_at with
      | some us => some (Int.tdiv us usPerSecond)
      | none => none }

/-- `HomGarClient._token_valid` at current instant `now`:
`if not self._token or not self._token_expires_at: return False` — the
token is falsy when `None` or the empty string, the expiry `datetime`
only when `None`; otherwise
`datetime.now(timezone.utc) < (self._token_expires_at - timedelta(minutes=5))`. -/
def token_valid (st : ClientState) (now : Int) : Bool :=
  match st.token, st.token_expires_at with
  | some t, some e => if t = "" then false else decide (now < e - fiveMinutesUs)
  | _, _ => false

/-- `HomGarClient.ensure_logged_in`:
`if self._token_valid(): return` then `await self._login()`, so a login
is performed exactly when `_token_valid()` is false. -/
def ensure_logged_in_performs_login (st : ClientState) (now : Int) : Bool :=
  ! token_valid st now

/-! ## Telemetry payload decoders (`homgar_api.py`, module level) -/

/-- A single ASCII hexadecimal digit, as recognised by Python
`int(_, 16)`. -/
def hexDigit? (c : Char) : Option Nat :=
  if '0' ≤ c ∧ c ≤ '9' then some (c.toNat - '0'.toNat)
  else if 'a' ≤ c ∧ c ≤ 'f' then some (c.toNat - 'a'.toNat + 10)
  else if 'A' ≤ c ∧ c ≤ 'F' then some (c.toNat - 'A'.toNat + 10)
  else none

/-- ASCII whitespace stripped by Python `int(s, 16)` around the
numeral. -/
def isPySpace (c : Char) : Bool :=
  c = ' ' || c = '\t' || c = '\n' || c = '\x0b' || c = '\x0c' || c = '\r'

/-- Python `int(s, 16)` restricted to the 2-character slices taken by
`_parse_homgar_payload`: either two hex digits, or one hex digit with a
leading `+`/`-` sign or with surrounding whitespace; anything else (for
example `"0x"`, `"_1"`, `"1_"`) raises `ValueError`, modelled as
`none`.  Note that a leading `-` yields a NEGATIVE value, exactly as
Python's `int("-1", 16) = -1` does. -/
def int_of_hex2 (c₁ c₂ : Char) : Option Int :=
  match hexDigit? c₁, hexDigit? c₂ with
  | some d₁, some d₂ => some ((16 * d₁ + d₂ : Nat) : Int)
  | _, _ =>
    if isPySpace c₁ then (hexDigit? c₂).map (fun d => (d : Int))
    else if isPySpace c₂ then (hexDigit? c₁).map (fun d => (d : Int))
    else if c₁ = '+' then (hexDigit? c₂).map (fun d => (d : Int))
    else if c₁ = '-' then (hexDigit? c₂).map (fun d => -(d : Int))
    else none

/-- The loop of `_parse_homgar_payload`: `int(hex_str[i:i+2], 16)` for
each consecutive 2-character slice, failing (`ValueError`) at the first
slice that is not a base-16 numeral.  The odd single-character leftover
case cannot arise under the even-length guard. -/
def parseHexPairs : List Char → Except String (List Int)
  | [] => .ok []
  | c₁ :: c₂ :: rest =>
    match int_of_hex2 c₁ c₂ with
    | some b => (parseHexPairs rest).map (fun bs => b :: bs)
    | none => .error "invalid literal for int() with base 16"
  | [_] => .error "invalid literal for int() with base 16"

/-- `raw.startswith("10#")` on the string's character sequence. -/
def startsWith10 (raw : String) : Bool :=
  match raw.data with
  | '1' :: '0' :: '#' :: _ => true
  | _ => false

/-- `_parse_homgar_payload`: rejects a payload that is empty or does not
start with the literal prefix `10#` (`not raw or not
raw.startswith("10#")` — an empty string also fails the prefix match),
rejects an odd-length remainder `hex_str = raw[3:]` (`raw.data.drop 3`),
then parses each 2-character slice of it. -/
def _parse_homgar_payload (raw : String) : Except String (List Int) :=
  if startsWith10 raw then
    let hex_str := raw.data.drop 3
    if hex_str.length % 2 ≠ 0 then
      .error "Hex payload length must be even"
    else
      parseHexPairs hex_str
  else
    .error ("Unexpected payload format: " ++ raw)

/-- `_le16`: `bytes_[index] | (bytes_[index + 1] << 8)`.  Callers
guarantee the indices are in range; out-of-range access (Python
`IndexError`) is modelled with default `0` and never exercised. -/
def _le16 (bytes_ : List Int) (index : Nat) : Int :=
  Int.lor (bytes_.getD index 0) ((bytes_.getD (index + 1) 0) <<< (8 : Int))

/-- `_f10_to_c`: `f = raw_f10 / 10.0; (f - 32.0) / 1.8`, float
arithmetic modelled as exact rationals (`1.8 = 18/10`). -/
def _f10_to_c (raw_f10 : Int) : ℚ :=
  ((raw_f10 : ℚ) / 10 - 32) / (18 / 10)

/-- Python `b[1] - 256 if b[1] >= 128 else b[1]` (signed int8 view). -/
def signedRssi (b1 : Int) : Int :=
  if 128 ≤ b1 then b1 - 256 else b1

/-- Result dict of `decode_moisture_simple`. -/
structure MoistureSimpleReading where
  type : String
  rssi_dbm : Int
  moisture_percent : Int
  battery_status_code : Int
  raw_bytes : List Int
deriving DecidableEq

/-- Result dict of `decode_moisture_full`;  `temperature_c` and
`illuminance_lux` are Python floats, modelled as `ℚ`. -/
structure MoistureFullReading where
  type : String
  rssi_dbm : Int
  moisture_percent : Int
  temperature_c : ℚ
  temperature_f10 : Int
  illuminance_lux : ℚ
  illuminance_raw10 : Int
  battery_status_code : Int
  raw_bytes : List Int
deriving DecidableEq

/-- Result dict of `decode_rain`; the four `_mm` fields are Python
floats, modelled as `ℚ`. -/
structure RainReading where
  type : String
  rain_last_hour_mm : ℚ
  rain_last_24h_mm : ℚ
  rain_last_7d_mm : ℚ
  rain_total_mm : ℚ
  rain_last_hour_raw10 : Int
  rain_last_24h_raw10 : Int
  rain_last_7d_raw10 : Int
  rain_total_raw10 : Int
  battery_status_code : Int
  raw_bytes : List Int
deriving DecidableEq

/-- `decode_moisture_simple` (model `HCS026FRF`): framing, minimum 9
bytes, `0x88` moisture tag at `b[5]`, then RSSI from `b[1]`, moisture
from `b[6]`, big-endian status `(b[7] << 8) | b[8]`. -/
def decode_moisture_simple (raw : String) : Except String MoistureSimpleReading :=
  match _parse_homgar_payload raw with
  | .error e => .error e
  | .ok b =>
    if b.length < 9 then .error "Moisture simple payload too short"
    else if b.getD 5 0 ≠ 0x88 then .error "Expected 0x88 moisture tag at b[5]"
    else .ok
      { type := "moisture_simple"
        rssi_dbm := signedRssi (b.getD 1 0)
        moisture_percent := b.getD 6 0
        battery_status_code := Int.lor ((b.getD 7 0) <<< (8 : Int)) (b.getD 8 0)
        raw_bytes := b }

/-- `decode_moisture_full` (model `HCS021FRF`): framing, minimum 16
bytes, temperature little-endian at bytes 6–7 (tenths °F, converted by
`_f10_to_c`), `0x88` tag at `b[8]`, moisture at `b[9]`, `0xC6` tag at
`b[10]`, illuminance little-endian at bytes 11–12 (lux = raw / 10),
big-endian status `(b[14] << 8) | b[15]`. -/
def decode_moisture_full (raw : String) : Except String MoistureFullReading :=
  match _parse_homgar_payload raw with
  | .error e => .error e
  | .ok b =>
    if b.length < 16 then .error "Moisture full payload too short"
    else if b.getD 8 0 ≠ 0x88 then .error "Expected 0x88 moisture tag at b[8]"
    else if b.getD 10 0 ≠ 0xC6 then .error "Expected 0xC6 lux tag at b[10]"
    else .ok
      { type := "moisture_full"
        rssi_dbm := signedRssi (b.getD 1 0)
        moisture_percent := b.getD 9 0
        temperature_c := _f10_to_c (_le16 b 6)
        temperature_f10 := _le16 b 6
        illuminance_lux := (_le16 b 11 : ℚ) / 10
        illuminance_raw10 := _le16 b 11
        battery_status_code := Int.lor ((b.getD 14 0) <<< (8 : Int)) (b.getD 15 0)
        raw_bytes := b }

/-- `decode_rain` (model `HCS012ARF`): framing, minimum 24 bytes, marker
checks `FD 04` at 3–4, `FD 05` at 7–8, `FD 06` at 11–12, `0x97` at 17,
then little-endian tenth-millimetre totals at offsets 5, 9, 13, 18 and
big-endian status `(b[22] << 8) | b[23]`. -/
def decode_rain (raw : String) : Except String RainReading :=
  match _parse_homgar_payload raw with
  | .error e => .error e
  | .ok b =>
    if b.length < 24 then .error "Rain payload too short"
    else if ¬ (b.getD 3 0 = 0xFD ∧ b.getD 4 0 = 0x04) then
      .error "Rain payload missing FD 04 at [3:5]"
    else if ¬ (b.getD 7 0 = 0xFD ∧ b.getD 8 0 = 0x05) then
      .error "Rain payload missing FD 05 at [7:9]"
    else if ¬ (b.getD 11 0 = 0xFD ∧ b.getD 12 0 = 0x06) then
      .error "Rain payload missing FD 06 at [11:13]"
    else if b.getD 17 0 ≠ 0x97 then
      .error "Rain payload missing 0x97 at b[17]"
    else .ok
      { type := "rain"
        rain_last_hour_mm := (_le16 b 5 : ℚ) / 10
        rain_last_24h_mm := (_le16 b 9 : ℚ) / 10
        rain_last_7d_mm := (_le16 b 13 : ℚ) / 10
        rain_total_mm := (_le16 b 18 : ℚ) / 10
        rain_last_hour_raw10 := _le16 b 5
        rain_last_24h_raw10 := _le16 b 9
        rain_last_7d_raw10 := _le16 b 13
        rain_total_raw10 := _le16 b 18
        battery_status_code := Int.lor ((b.getD 22 0) <<< (8 : Int)) (b.getD 23 0)
        raw_bytes := b }

/-- Whether an `Except` result is a failure (a raised `ValueError`). -/
def isErr {ε α : Type} : Except ε α → Bool
  | .error _ => true
  | .ok _ => false

/-- Byte layout of the specification's moisture-full example: RSSI 5,
temperature raw `0x02F0 = 752` (little-endian at 6–7), moisture `0x2A`,
illuminance raw `0x05DC = 1500` (little-endian at 11–12). -/
def exampleFullBytes : List Int :=
  [0xE1, 0x05, 0x00, 0xDC, 0x01, 0x85, 0xF0, 0x02,
   0x88, 0x2A, 0xC6, 0xDC, 0x05, 0x00, 0xFF, 0x0F]

/-- The wire form of `exampleFullBytes`. -/
def exampleFullRaw : String := "10#E10500DC0185F002882AC6DC0500FF0F"

/-! ## Configuration flow, step "user" (`config_flow.py`) -/

/-- `const.DOMAIN`. -/
def DOMAIN : String := "homgar"

/-- One home from the `list_homes` response (`hid`, `homeName`). -/
structure Home where
  hid : Int
  homeName : String
deriving DecidableEq

/-- The fields submitted on the "user" form. -/
structure UserInput where
  area_code : String
  email : String
  password : String
deriving DecidableEq

/-- A network request issued by the step: the login POST performed by
`ensure_logged_in` on the fresh client (whose token state is unset, so
`_token_valid()` is false and `_login()` always runs), and the
home-listing GET of `list_homes`. -/
inductive NetCall where
  | login
  | listHomes
deriving DecidableEq

/-- Outcome of `client.ensure_logged_in()` as the boundary delivers it:
success, a raised `HomGarApiError`, or a raised `aiohttp.ClientError`. -/
inductive LoginOutcome where
  | success
  | apiError
  | netError
deriving DecidableEq

/-- Outcome of `client.list_homes()` (reached only after a successful
login): a homes list, a raised `HomGarApiError`, or a raised
`aiohttp.ClientError`. -/
inductive HomesOutcome where
  | homes (hs : List Home)
  | apiError
  | netError
deriving DecidableEq

/-- The environment the "user" step runs against: the unique ids of the
already-configured entries (`async_set_unique_id` /
`_abort_if_unique_id_configured`), and what the two network calls would
return. -/
structure FlowEnv where
  configuredUniqueIds : List String
  loginOutcome : LoginOutcome
  homesOutcome : HomesOutcome

/-- Result of one invocation of the "user" step.  The step itself never
creates a config entry — only `async_step_select_homes` does — so there
is no entry-creating constructor here. -/
inductive StepResult where
  | showForm (stepId : String) (errors : List (String × String))
  | abort (reason : String)
  | selectHomesStep (homes : List Home)
deriving DecidableEq

/-- `HomGarConfigFlow.async_step_user`, returning the flow result
together with the ordered trace of network requests issued.  Mirrors the
source: with no input, show the empty form; otherwise set the unique id
`f"{DOMAIN}_{email}"` and abort (`already_configured`) if it is already
configured — this guard runs BEFORE `HomGarClient` is constructed and
before any network call; then `ensure_logged_in()` followed by
`list_homes()` under `except HomGarApiError` → `auth_failed` and
`except aiohttp.ClientError` → `cannot_connect`; an empty homes list
gives `no_homes`, otherwise the flow advances to the `select_homes`
step carrying the homes. -/
def async_step_user (env : FlowEnv) (input : Option UserInput) :
    StepResult × List NetCall :=
  match input with
  | none => (.showForm "user" [], [])
  | some ui =>
    if (DOMAIN ++ "_" ++ ui.email) ∈ env.configuredUniqueIds then
      (.abort "already_configured", [])
    else
      match env.loginOutcome with
      | .apiError => (.showForm "user" [("base", "auth_failed")], [.login])
      | .netError => (.showForm "user" [("base", "cannot_connect")], [.login])
      | .success =>
        match env.homesOutcome with
        | .apiError =>
          (.showForm "user" [("base", "auth_failed")], [.login, .listHomes])
        | .netError =>
          (.showForm "user" [("base", "cannot_connect")], [.login, .listHomes])
        | .homes hs =>
          if hs.isEmpty then
            (.showForm "user" [("base", "no_homes")], [.login, .listHomes])
          else
            (.selectHomesStep hs, [.login, .listHomes])

/-! ## Claims about the token lifecycle -/

/-- C1: for every client state holding a (truthy) token and an expiry
instant, `ensure_logged_in` returns without performing a login exactly
when the current time is strictly before the expiry minus 5 minutes; in
particular with expiry at most now + 5 min a fresh login is performed,
and with expiry exactly now + 5 min + 1 s it is not. -/
theorem c1_ensure_logged_in_margin (st : ClientState) (t : String) (e now : Int)
    (ht : st.token = some t) (hne : t ≠ "") (he : st.token_expires_at = some e) :
    (ensure_logged_in_performs_login st now = false ↔ now < e - fiveMinutesUs)
    ∧ (e ≤ now + fiveMinutesUs → ensure_logged_in_performs_login st now = true)
    ∧ (e = now + fiveMinutesUs + usPerSecond →
        ensure_logged_in_performs_login st now = false) := by
  refine ⟨?_, ?_, ?_⟩
  · simp [ensure_logged_in_performs_login, token_valid, ht, he, hne,
      fiveMinutesUs, usPerSecond]
  · simp [ensure_logged_in_performs_login, token_valid, ht, he, hne,
      fiveMinutesUs, usPerSecond]
  · simp [ensure_logged_in_performs_login, token_valid, ht, he, hne,
      fiveMinutesUs, usPerSecond]
    omega

/-- Witness for C1, current time at the epoch: expiry 301 s (5 min 1 s)
skips the login, expiry 300 s (exactly 5 min) performs one. -/
theorem c1_witness :
    ensure_logged_in_performs_login
        ⟨some "tok", none, some (301 * usPerSecond)⟩ 0 = false
    ∧ ensure_logged_in_performs_login
        ⟨some "tok", none, some (300 * usPerSecond)⟩ 0 = true :=
  ⟨(c1_ensure_logged_in_margin ⟨some "tok", none, some (301 * usPerSecond)⟩
      "tok" (301 * usPerSecond) 0 rfl (by decide) rfl).2.2 (by decide),
    (c1_ensure_logged_in_margin ⟨some "tok", none, some (300 * usPerSecond)⟩
      "tok" (300 * usPerSecond) 0 rfl (by decide) rfl).2.1 (by decide)⟩

/-- C9: a client whose token or expiry instant is unset is never
considered valid and `ensure_logged_in` performs a full login; in
particular a fresh client restored from a snapshot with no expiry
timestamp always logs in before any authenticated call. -/
theorem c9_unset_token_forces_login :
    (∀ (st : ClientState) (now : Int),
      st.token = none ∨ st.token_expires_at = none →
        token_valid st now = false
        ∧ ensure_logged_in_performs_login st now = true)
    ∧ (∀ (data : TokenData) (now : Int),
      data.token_expires_at = none →
        token_valid (restore_tokens initClientState data) now = false
        ∧ ensure_logged_in_performs_login
            (restore_tokens initClientState data) now = true) := by
  have main : ∀ (st : ClientState) (now : Int),
      st.token = none ∨ st.token_expires_at = none →
        token_valid st now = false
        ∧ ensure_logged_in_performs_login st now = true := by
    intro st now h
    have hv : token_valid st now = false := by
      rcases hst : st.token with _ | t <;>
        rcases hexp : st.token_expires_at with _ | e <;>
        simp [token_valid, hst, hexp]
      rcases h with h | h
      · exact absurd (hst ▸ h) (by simp)
      · exact absurd (hexp ▸ h) (by simp)
    exact ⟨hv, by simp [ensure_logged_in_performs_login, hv]⟩
  refine ⟨main, fun data now h => main _ now (Or.inr ?_)⟩
  simp [restore_tokens, h, initClientState]

/-- Witness for C9: a fully unset client, and a snapshot carrying a bare
token without an expiry timestamp. -/
theorem c9_witness :
    (token_valid ⟨none, none, none⟩ 0 = false
      ∧ ensure_logged_in_performs_login ⟨none, none, none⟩ 0 = true)
    ∧ (token_valid (restore_tokens initClientState ⟨some "tok", none, none⟩) 7 = false
      ∧ ensure_logged_in_performs_login
          (restore_tokens initClientState ⟨some "tok", none, none⟩) 7 = true) :=
  ⟨c9_unset_token_forces_login.1 ⟨none, none, none⟩ 0 (Or.inl rfl),
    c9_unset_token_forces_login.2 ⟨some "tok", none, none⟩ 7 rfl⟩

/-- C2 counterexample: with token `"t"` and expiry 300.5 s past the
epoch (a sub-second instant, as `_login` produces from a millisecond
server timestamp), the original client is valid at the epoch but the
client restored from its exported snapshot is not: `int(.timestamp())`
truncated the half second away.  This refutes the claim that the
round trip preserves the validity decision for every token state and
every current time. -/
theorem c2_counterexample :
    token_valid ⟨some "t", none, some 300500000⟩ 0 = true
    ∧ token_valid
        (restore_tokens initClientState
          (export_tokens ⟨some "t", none, some 300500000⟩)) 0 = false := by
  decide

/-- C2 (amended): whenever the client's expiry instant is unset or a
whole number of seconds — as is every instant produced by
`restore_tokens` — exporting the token state and restoring the snapshot
into a fresh client preserves the token-validity decision at every
current time. -/
theorem c2_roundtrip_whole_seconds (st : ClientState) (now : Int)
    (h : st.token_expires_at = none
      ∨ ∃ s : Int, st.token_expires_at = some (s * usPerSecond)) :
    token_valid (restore_tokens initClientState (export_tokens st)) now
      = token_valid st now := by
  rcases h with h | ⟨s, h⟩
  · cases htok : st.token <;>
      simp [token_valid, export_tokens, restore_tokens, initClientState, h, htok]
  · have hdiv : Int.tdiv (s * usPerSecond) usPerSecond = s :=
      Int.mul_tdiv_cancel s (by decide)
    cases htok : st.token <;>
      simp [token_valid, export_tokens, restore_tokens, initClientState, h,
        htok, hdiv]

/-- Witness for C2 (amended) at a whole-second expiry of 400 s, checked
at the epoch, where the validity decision is `true` on both sides. -/
theorem c2_witness :
    token_valid
        (restore_tokens initClientState
          (export_tokens ⟨some "t", none, some (400 * usPerSecond)⟩)) 0
      = token_valid ⟨some "t", none, some (400 * usPerSecond)⟩ 0
    ∧ token_valid ⟨some "t", none, some (400 * usPerSecond)⟩ 0 = true :=
  ⟨c2_roundtrip_whole_seconds ⟨some "t", none, some (400 * usPerSecond)⟩ 0
      (Or.inr ⟨400, rfl⟩),
    by decide⟩

/-- C7 counterexample: a fresh client restored from a snapshot that has
an expiry timestamp but no token holds no token, yet its export carries
a present (non-sentinel) expiry — the sentinel tracks the expiry
instant, not the token.  This refutes "the exported expiry field is the
absent-value sentinel exactly when no token is held". -/
theorem c7_counterexample :
    ¬ (((export_tokens
          (restore_tokens initClientState ⟨none, none, some 1000⟩)).token_expires_at
            = none)
        ↔ (restore_tokens initClientState ⟨none, none, some 1000⟩).token = none) := by
  decide

/-- C7 (amended): export serializes the expiry instant as an integer
Unix timestamp (seconds, truncated toward zero) and the exported expiry
field is the absent-value sentinel exactly when the client holds no
expiry instant; the token and refresh-token fields are copied verbatim.
Export is pure: in this embedding it is a function of the state that
returns a snapshot without modifying anything. -/
theorem c7_export_expiry_serialization (st : ClientState) :
    ((export_tokens st).token_expires_at = none ↔ st.token_expires_at = none)
    ∧ (∀ us : Int, st.token_expires_at = some us →
        (export_tokens st).token_expires_at = some (Int.tdiv us usPerSecond))
    ∧ (export_tokens st).token = st.token
    ∧ (export_tokens st).refresh_token = st.refresh_token := by
  refine ⟨?_, ?_, rfl, rfl⟩ <;>
    cases h : st.token_expires_at <;> simp [export_tokens, h]

/-- Witness for C7 (amended) at a client whose expiry is 1.5 s past the
epoch: the export truncates it to the Unix timestamp 1 and copies the
token and refresh token verbatim. -/
theorem c7_witness :
    (export_tokens ⟨some "t", some "r", some 1500000⟩).token_expires_at
        = some (Int.tdiv 1500000 usPerSecond)
    ∧ (export_tokens ⟨some "t", some "r", some 1500000⟩).token = some "t"
    ∧ (export_tokens ⟨some "t", some "r", some 1500000⟩).refresh_token = some "r"
    ∧ Int.tdiv 1500000 usPerSecond = 1 :=
  ⟨(c7_export_expiry_serialization ⟨some "t", some "r", some 1500000⟩).2.1
      1500000 rfl,
    (c7_export_expiry_serialization ⟨some "t", some "r", some 1500000⟩).2.2.1,
    (c7_export_expiry_serialization ⟨some "t", some "r", some 1500000⟩).2.2.2,
    by decide⟩

/-! ## Claims about the telemetry decoders -/

/-- All three decoders begin with `_parse_homgar_payload` and re-raise
its `ValueError` unchanged. -/
theorem decoders_propagate_parse_error (raw e : String)
    (h : _parse_homgar_payload raw = .error e) :
    decode_moisture_simple raw = .error e
    ∧ decode_moisture_full raw = .error e
    ∧ decode_rain raw = .error e := by
  refine ⟨?_, ?_, ?_⟩ <;>
    simp [decode_moisture_simple, decode_moisture_full, decode_rain, h]

/-- C3: every input that does not start with the literal prefix `10#`,
and every input whose remainder after `10#` has odd length, makes each
of the three decoders fail with an InvalidFormat (`ValueError`) error
instead of returning a reading. -/
theorem c3_decoders_reject_bad_framing (raw : String) :
    (startsWith10 raw = false →
      isErr (decode_moisture_simple raw) = true
      ∧ isErr (decode_moisture_full raw) = true
      ∧ isErr (decode_rain raw) = true)
    ∧ (startsWith10 raw = true → (raw.data.drop 3).length % 2 = 1 →
      isErr (decode_moisture_simple raw) = true
      ∧ isErr (decode_moisture_full raw) = true
      ∧ isErr (decode_rain raw) = true) := by
  constructor
  · intro h
    have hp : _parse_homgar_payload raw
        = .error ("Unexpected payload format: " ++ raw) := by
      simp [_parse_homgar_payload, h]
    obtain ⟨h1, h2, h3⟩ := decoders_propagate_parse_error raw _ hp
    simp [isErr, h1, h2, h3]
  · intro h hodd
    have hne : (raw.data.drop 3).length % 2 ≠ 0 := by omega
    have hp : _parse_homgar_payload raw
        = .error "Hex payload length must be even" := by
      unfold _parse_homgar_payload
      rw [h]
      simp only [if_true]
      exact if_pos hne
    obtain ⟨h1, h2, h3⟩ := decoders_propagate_parse_error raw _ hp
    simp [isErr, h1, h2, h3]

/-- Witness for C3: `"xx"` fails the prefix check and `"10#abc"` has an
odd-length remainder; all three decoders reject both. -/
theorem c3_witness :
    (isErr (decode_moisture_simple "xx") = true
      ∧ isErr (decode_moisture_full "xx") = true
      ∧ isErr (decode_rain "xx") = true)
    ∧ (isErr (decode_moisture_simple "10#abc") = true
      ∧ isErr (decode_moisture_full "10#abc") = true
      ∧ isErr (decode_rain "10#abc") = true) :=
  ⟨(c3_decoders_reject_bad_framing "xx").1 (by decide),
    (c3_decoders_reject_bad_framing "10#abc").2 (by decide) (by decide)⟩

/-- C4 (code bug): the framing step accepts the payload `"10#-1"` and
returns the byte list `[-1]`, because Python `int("-1", 16)` honours the
sign; this contradicts both the claim and the function's own docstring
("Turn '10#E1...' into [0-255] bytes list"), which promise entries in
the range 0–255. -/
theorem c4_parse_accepts_negative_byte :
    _parse_homgar_payload "10#-1" = .ok [-1] := by decide

/-- C5: on a payload framing to the bytes
`[0xE1, 0x05, 0x00, 0xDC, 0x01, 0x88, 0x2A, 0x00, 0x01]` the
moisture-simple decoder reports RSSI 5 dBm, moisture 42 % and
battery/status code 1 (bytes 7–8 big-endian); and on every payload of
at least 9 framed bytes whose byte 5 is not `0x88` it fails with
InvalidFormat. -/
theorem c5_decode_moisture_simple_example (raw : String) (b : List Int)
    (hp : _parse_homgar_payload raw = .ok b) :
    (b = [0xE1, 0x05, 0x00, 0xDC, 0x01, 0x88, 0x2A, 0x00, 0x01] →
      decode_moisture_simple raw =
        .ok { type := "moisture_simple", rssi_dbm := 5, moisture_percent := 42,
              battery_status_code := 1, raw_bytes := b })
    ∧ (9 ≤ b.length → b.getD 5 0 ≠ 0x88 →
        isErr (decode_moisture_simple raw) = true) := by
  constructor
  · intro hb
    subst hb
    simp [decode_moisture_simple, hp]
    decide
  · intro hlen htag
    have h9 : ¬ (b.length < 9) := by omega
    simp only [decode_moisture_simple, hp]
    rw [if_neg h9, if_pos htag]
    rfl

/-- Witness for C5: the concrete payload `"10#E10500DC01882A0001"`
decodes to the example reading, and `"10#E10500DC01872A0001"` (byte 5 =
`0x87`) is rejected. -/
theorem c5_witness :
    decode_moisture_simple "10#E10500DC01882A0001" =
      .ok { type := "moisture_simple", rssi_dbm := 5, moisture_percent := 42,
            battery_status_code := 1,
            raw_bytes := [0xE1, 0x05, 0x00, 0xDC, 0x01, 0x88, 0x2A, 0x00, 0x01] }
    ∧ isErr (decode_moisture_simple "10#E10500DC01872A0001") = true :=
  ⟨(c5_decode_moisture_simple_example "10#E10500DC01882A0001"
      [0xE1, 0x05, 0x00, 0xDC, 0x01, 0x88, 0x2A, 0x00, 0x01] (by decide)).1 rfl,
    (c5_decode_moisture_simple_example "10#E10500DC01872A0001"
      [0xE1, 0x05, 0x00, 0xDC, 0x01, 0x87, 0x2A, 0x00, 0x01] (by decide)).2
      (by decide) (by decide)⟩

/-- C6: every successfully decoded moisture-full reading reports the
temperature in Celsius as `(raw / 10 - 32) / 1.8` of the little-endian
16-bit raw value at bytes 6–7 (tenths of a Fahrenheit degree), and the
illuminance in lux as the little-endian 16-bit raw value at bytes 11–12
divided by 10; in particular the conversion maps raw 752 to exactly
24 °C in this rational model (Python prints ≈ 24.0). -/
theorem c6_decode_moisture_full_conversions (raw : String)
    (r : MoistureFullReading) (h : decode_moisture_full raw = .ok r) :
    (r.temperature_c = ((_le16 r.raw_bytes 6 : ℚ) / 10 - 32) / (18 / 10)
      ∧ r.temperature_f10 = _le16 r.raw_bytes 6
      ∧ r.illuminance_lux = (_le16 r.raw_bytes 11 : ℚ) / 10
      ∧ r.illuminance_raw10 = _le16 r.raw_bytes 11)
    ∧ _f10_to_c 752 = 24 := by
  refine ⟨?_, by norm_num [_f10_to_c]⟩
  cases hp : _parse_homgar_payload raw with
  | error e =>
    simp only [decode_moisture_full, hp] at h
    exact absurd h (by simp)
  | ok b =>
    simp only [decode_moisture_full, hp] at h
    by_cases h16 : b.length < 16
    · rw [if_pos h16] at h
      exact absurd h (by simp)
    · rw [if_neg h16] at h
      by_cases h8 : b.getD 8 0 ≠ 0x88
      · rw [if_pos h8] at h
        exact absurd h (by simp)
      · rw [if_neg h8] at h
        by_cases h10 : b.getD 10 0 ≠ 0xC6
        · rw [if_pos h10] at h
          exact absurd h (by simp)
        · rw [if_neg h10] at h
          have hr := (Except.ok.injEq _ _).mp h
          subst hr
          exact ⟨rfl, rfl, rfl, rfl⟩

/-- Witness for C6: the concrete payload `exampleFullRaw` decodes with
temperature 24 °C (raw 752) and illuminance 150 lux (raw 1500). -/
theorem c6_witness :
    ((24 : ℚ) = ((_le16 exampleFullBytes 6 : ℚ) / 10 - 32) / (18 / 10)
      ∧ (752 : Int) = _le16 exampleFullBytes 6
      ∧ (150 : ℚ) = (_le16 exampleFullBytes 11 : ℚ) / 10
      ∧ (1500 : Int) = _le16 exampleFullBytes 11)
    ∧ _f10_to_c 752 = 24 :=
  c6_decode_moisture_full_conversions exampleFullRaw
    { type := "moisture_full", rssi_dbm := 5, moisture_percent := 42,
      temperature_c := 24, temperature_f10 := 752, illuminance_lux := 150,
      illuminance_raw10 := 1500, battery_status_code := 0xFF0F,
      raw_bytes := exampleFullBytes }
    (by
      have hp : _parse_homgar_payload exampleFullRaw = .ok exampleFullBytes := by
        decide
      have h16 : ¬ (exampleFullBytes.length < 16) := by decide
      have h8 : ¬ (exampleFullBytes.getD 8 0 ≠ 0x88) := by decide
      have h10 : ¬ (exampleFullBytes.getD 10 0 ≠ 0xC6) := by decide
      have hl6 : _le16 exampleFullBytes 6 = 752 := by decide
      have hl11 : _le16 exampleFullBytes 11 = 1500 := by decide
      have hr : signedRssi (exampleFullBytes.getD 1 0) = 5 := by decide
      have hm : exampleFullBytes.getD 9 0 = 42 := by decide
      have hbat : Int.lor ((exampleFullBytes.getD 14 0) <<< (8 : Int))
          (exampleFullBytes.getD 15 0) = 0xFF0F := by decide
      simp only [decode_moisture_full, hp]
      rw [if_neg h16, if_neg h8, if_neg h10]
      simp only [Except.ok.injEq, MoistureFullReading.mk.injEq, hl6, hl11, hr,
        hm, hbat]
      norm_num [_f10_to_c])

/-! ## Claims about the configuration flow -/

/-- C8: whenever the submitted email yields a unique id
(`f"{DOMAIN}_{email}"`) that is already configured, the "user" step
aborts with `already_configured` and issues no network call — the guard
runs before the client is even constructed, and the aborted step creates
no configuration entry (`StepResult` has no entry-creating outcome in
this step at all). -/
theorem c8_step_user_aborts_when_configured (env : FlowEnv) (ui : UserInput)
    (h : (DOMAIN ++ "_" ++ ui.email) ∈ env.configuredUniqueIds) :
    async_step_user env (some ui) = (.abort "already_configured", []) := by
  simp [async_step_user, h]

/-- Witness for C8: email `a@b.c` against an environment where
`homgar_a@b.c` is already configured. -/
theorem c8_witness :
    async_step_user
        { configuredUniqueIds := ["homgar_a@b.c"],
          loginOutcome := .success, homesOutcome := .homes [⟨1, "Garden"⟩] }
        (some { area_code := "27", email := "a@b.c", password := "pw" })
      = (.abort "already_configured", []) :=
  c8_step_user_aborts_when_configured
    { configuredUniqueIds := ["homgar_a@b.c"],
      loginOutcome := .success, homesOutcome := .homes [⟨1, "Garden"⟩] }
    { area_code := "27", email := "a@b.c", password := "pw" }
    (by decide)

/-- C10: in the "user" step every `HomGarApiError` — whether raised by
the login or by the home-listing call after a successful login —
surfaces as the `auth_failed` error marker, and only
`aiohttp.ClientError` network-transport errors surface as
`cannot_connect`; the step cannot distinguish an authentication failure
from any other API failure. -/
theorem c10_step_user_error_mapping (env : FlowEnv) (ui : UserInput)
    (h : (DOMAIN ++ "_" ++ ui.email) ∉ env.configuredUniqueIds) :
    (env.loginOutcome = .apiError →
      (async_step_user env (some ui)).1
        = .showForm "user" [("base", "auth_failed")])
    ∧ (env.loginOutcome = .success → env.homesOutcome = .apiError →
      (async_step_user env (some ui)).1
        = .showForm "user" [("base", "auth_failed")])
    ∧ (env.loginOutcome = .netError →
      (async_step_user env (some ui)).1
        = .showForm "user" [("base", "cannot_connect")])
    ∧ (env.loginOutcome = .success → env.homesOutcome = .netError →
      (async_step_user env (some ui)).1
        = .showForm "user" [("base", "cannot_connect")]) := by
  refine ⟨fun h1 => ?_, fun h1 h2 => ?_, fun h1 => ?_, fun h1 h2 => ?_⟩ <;>
    simp [async_step_user, h, h1]
  · simp [h2]
  · simp [h2]

/-- Witness for C10: the four error environments at a fresh email, each
mapped to its marker. -/
theorem c10_witness :
    (async_step_user
        { configuredUniqueIds := [], loginOutcome := .apiError,
          homesOutcome := .homes [] }
        (some { area_code := "27", email := "a@b.c", password := "pw" })).1
      = .showForm "user" [("base", "auth_failed")]
    ∧ (async_step_user
        { configuredUniqueIds := [], loginOutcome := .success,
          homesOutcome := .apiError }
        (some { area_code := "27", email := "a@b.c", password := "pw" })).1
      = .showForm "user" [("base", "auth_failed")]
    ∧ (async_step_user
        { configuredUniqueIds := [], loginOutcome := .netError,
          homesOutcome := .homes [] }
        (some { area_code := "27", email := "a@b.c", password := "pw" })).1
      = .showForm "user" [("base", "cannot_connect")]
    ∧ (async_step_user
        { configuredUniqueIds := [], loginOutcome := .success,
          homesOutcome := .netError }
        (some { area_code := "27", email := "a@b.c", password := "pw" })).1
      = .showForm "user" [("base", "cannot_connect")] :=
  ⟨(c10_step_user_error_mapping
      { configuredUniqueIds := [], loginOutcome := .apiError,
        homesOutcome := .homes [] }
      { area_code := "27", email := "a@b.c", password := "pw" }
      (by decide)).1 rfl,
    (c10_step_user_error_mapping
      { configuredUniqueIds := [], loginOutcome := .success,
        homesOutcome := .apiError }
      { area_code := "27", email := "a@b.c", password := "pw" }
      (by decide)).2.1 rfl rfl,
    (c10_step_user_error_mapping
      { configuredUniqueIds := [], loginOutcome := .netError,
        homesOutcome := .homes [] }
      { area_code := "27", email := "a@b.c", password := "pw" }
      (by decide)).2.2.1 rfl,
    (c10_step_user_error_mapping
      { configuredUniqueIds := [], loginOutcome := .success,
        homesOutcome := .netError }
      { area_code := "27", email := "a@b.c", password := "pw" }
      (by decide)).2.2.2 rfl rfl⟩
